import Mathlib

/-
Verification of the content-acquisition pipeline and view state machine of
the ai-blog repository (BlogGenerator component plus App wrapper).

Modelling conventions for the shallow embedding:
  - Remote calls are environment values: the text-generation call yields
    either a transport error or a payload, and the payload is recorded by
    its JSON.parse outcome (throws, parses to a schema-conforming array of
    drafts, or parses to some other JSON value on which calling map would
    throw a TypeError).  An absent response.text field behaves like the
    parse-throw case (JSON.parse of undefined throws) and is subsumed by it.
  - The image call yields either a transport error or a response object;
    optional fields of the untyped response are Option values.  An absent
    candidates array behaves like the transport-error case (member access
    throws, caught by the same handler) and is subsumed by it.
  - JavaScript truthiness on strings (empty string is falsy) and the
    template-literal rendering of undefined as the text undefined are
    embedded explicitly where the code relies on them.
  - React state (posts, selectedPost, isLoading, error) is one explicit
    ViewState record; setState calls become record updates; the single
    useEffect run is the fetchPostsAndImages function applied to the
    initial state.
-/

/-- A blog post draft as declared by the response schema of the
text-generation request: six required string fields. -/
structure PostDraft where
  id : String
  title : String
  summary : String
  content : String
  date : String
  imagePrompt : String
deriving DecidableEq, Repr

/-- A published post: a draft spread together with an imageUrl field,
mirroring the object spread in the pipeline. -/
structure Post extends PostDraft where
  imageUrl : String
deriving DecidableEq, Repr

/-- Outcome of JSON.parse on the text-generation payload when it does not
throw: either a schema-conforming array of drafts, or some other JSON value
(object, string, number, boolean, null) on which the later call to map
throws a TypeError.  Arrays whose elements deviate from the schema are not
modelled. -/
inductive TextPayload where
  | drafts (l : List PostDraft)
  | nonArray
deriving DecidableEq, Repr

/-- What generateBlogContent hands to its caller: either a sequence of
drafts, or the non-array JSON value returned unchanged by JSON.parse. -/
inductive GenResult where
  | seq (l : List PostDraft)
  | nonArray
deriving DecidableEq, Repr

/-- The text-generation call as seen through its error channels: a thrown
transport or credential error, a payload on which JSON.parse throws, or a
parsed payload. -/
abbrev TextFetch := Except String (Except String TextPayload)

/-- Embeds generateBlogContent: the try block parses the response text and
returns the parsed value; the catch block turns any thrown error (transport,
credential, or JSON.parse failure) into an empty array. -/
def generateBlogContent : TextFetch → GenResult
  | Except.error _ => GenResult.seq []
  | Except.ok (Except.error _) => GenResult.seq []
  | Except.ok (Except.ok (TextPayload.drafts l)) => GenResult.seq l
  | Except.ok (Except.ok TextPayload.nonArray) => GenResult.nonArray

/-- The inlineData member of a response part; both fields are optional in
the untyped response. -/
structure InlineData where
  mimeType : Option String
  data : Option String
deriving DecidableEq, Repr

/-- One part of a candidate content; inlineData is present or absent. -/
structure RespPart where
  inlineData : Option InlineData
deriving DecidableEq, Repr

/-- The content member of a candidate; its parts array may be absent. -/
structure Content where
  parts : Option (List RespPart)
deriving DecidableEq, Repr

/-- One response candidate; its content member may be absent. -/
structure Candidate where
  content : Option Content
deriving DecidableEq, Repr

/-- The image-generation response object. -/
structure ImageResponse where
  candidates : List Candidate
deriving DecidableEq, Repr

/-- The image-generation call: a thrown transport error or a response. -/
abbrev ImageFetch := String → Except String ImageResponse

/-- JavaScript string-or-default: the || operator treats both undefined and
the empty string as falsy. -/
def jsOr (o : Option String) (dflt : String) : String :=
  match o with
  | none => dflt
  | some s => if s.isEmpty then dflt else s

/-- JavaScript template-literal rendering of a possibly-undefined string. -/
def jsStr (o : Option String) : String :=
  match o with
  | none => "undefined"
  | some s => s

/-- The fixed 1x1 placeholder data URI used when no image is produced. -/
def genericFallbackUrl : String :=
  "data:image/png;base64,iVBORw0KGgoAAAANSUhEUgAAAAEAAAABCAYAAAAfFcSJAAAADUlEQVR42mNk+M9QDwADagGA38qL+QAAAABJRU5ErkJggg=="

/-- The prompt string sent to the image model for a given imagePrompt. -/
def imageRequestPrompt (imagePrompt : String) : String :=
  "Generate a photorealistic, abstract, 16:9 aspect ratio image for a tech blog related to: " ++ imagePrompt

/-- Embeds generateImage.  Every member access on a missing field of the
untyped response throws a TypeError that the catch block turns into the
fallback, so each absent-field case maps to the fallback; the explicit
fallback branch covers a response whose parts hold no inlineData.  When the
find call locates an inline part, the result is the data URI built from its
mime type (defaulting to image/jpeg under ||) and its payload. -/
def generateImage (imagePrompt : String) (fetch : ImageFetch) : String :=
  match fetch (imageRequestPrompt imagePrompt) with
  | Except.error _ => genericFallbackUrl
  | Except.ok resp =>
    match resp.candidates with
    | [] => genericFallbackUrl
    | c :: _ =>
      match c.content with
      | none => genericFallbackUrl
      | some ct =>
        match ct.parts with
        | none => genericFallbackUrl
        | some ps =>
          match ps.find? (fun p => p.inlineData.isSome) with
          | none => genericFallbackUrl
          | some part =>
            match part.inlineData with
            | none => genericFallbackUrl
            | some d =>
              "data:" ++ jsOr d.mimeType "image/jpeg" ++ ";base64," ++ jsStr d.data

/-- True exactly when the find call inside generateImage locates a part
carrying inlineData. -/
def foundInlinePart (r : Except String ImageResponse) : Bool :=
  match r with
  | Except.error _ => false
  | Except.ok resp =>
    match resp.candidates with
    | [] => false
    | c :: _ =>
      match c.content with
      | none => false
      | some ct =>
        match ct.parts with
        | none => false
        | some ps => (ps.find? (fun p => p.inlineData.isSome)).isSome

/-- The remote environment of one pipeline run: the text-generation outcome
and the image-generation outcome per prompt. -/
structure Env where
  textResult : TextFetch
  imgFetch : ImageFetch

/-- The component state: the four useState cells of BlogGenerator. -/
structure ViewState where
  posts : List Post
  selectedPost : Option Post
  isLoading : Bool
  error : Option String
deriving DecidableEq, Repr

/-- The initial component state: empty posts, no selection, loading, no
error. -/
def initialState : ViewState :=
  { posts := [], selectedPost := none, isLoading := true, error := none }

/-- The fixed user-facing error message set by the pipeline catch block. -/
def fetchErrorMessage : String :=
  "Failed to fetch content or images. Ensure your API key is correct and check the network."

/-- The per-draft image step of the pipeline: map each draft to the draft
spread together with its generated imageUrl.  Promise.all preserves the
order of the mapped array, so the join is order-preserving. -/
def postsWithImages (env : Env) (drafts : List PostDraft) : List Post :=
  drafts.map (fun d => { toPostDraft := d, imageUrl := generateImage d.imagePrompt env.imgFetch })

/-- Embeds fetchPostsAndImages as a state transformer: set loading and clear
the error, then either publish the mapped posts (when generateBlogContent
returned an array) or, when the map call throws on a non-array value, set
the fixed error message; the finally block clears loading on both paths. -/
def fetchPostsAndImages (env : Env) (s : ViewState) : ViewState :=
  let s1 := { s with isLoading := true, error := none }
  match generateBlogContent env.textResult with
  | GenResult.seq drafts =>
    { s1 with posts := postsWithImages env drafts, isLoading := false }
  | GenResult.nonArray =>
    { s1 with error := some fetchErrorMessage, isLoading := false }

/-- Embeds handleReadMore: set the selection (the scroll reset is a pure UI
side effect outside the state). -/
def handleReadMore (s : ViewState) (post : Post) : ViewState :=
  { s with selectedPost := some post }

/-- Embeds the back-button click handler, which calls setSelectedPost with
null. -/
def clearSelection (s : ViewState) : ViewState :=
  { s with selectedPost := none }

/-- The four mutually exclusive rendered views. -/
inductive View where
  | loading
  | errored (msg : String)
  | detail (p : Post)
  | list (posts : List Post)
deriving DecidableEq, Repr

/-- The rendering tail of BlogGenerator once loading and error are ruled
out: the detail view when a post is selected (objects are always truthy),
else the card grid over posts. -/
def renderReady (s : ViewState) : View :=
  match s.selectedPost with
  | some p => View.detail p
  | none => View.list s.posts

/-- Embeds the rendering chain of BlogGenerator: if isLoading, the loading
view; else if error is truthy (a non-empty string), the error banner; else
the ready views. -/
def render (s : ViewState) : View :=
  if s.isLoading then View.loading
  else
    match s.error with
    | some m => if m.isEmpty then renderReady s else View.errored m
    | none => renderReady s

/-- The display key of a rendered card, taken from the id field of the
post. -/
def displayKey (p : Post) : String := p.id

/-- User-triggered transitions after the initial load: the Read More button
of a card (rendered only in the list view, one button per element of posts)
and the back button (rendered only in the detail view). -/
inductive UStep : ViewState → ViewState → Prop where
  | readMore (s : ViewState) (p : Post) :
      render s = View.list s.posts → p ∈ s.posts → UStep s (handleReadMore s p)
  | back (s : ViewState) (p : Post) :
      render s = View.detail p → UStep s (clearSelection s)

/-- States reachable by the component: the initial state, the state after
the single useEffect pipeline run, and anything reachable from those by
user-triggered transitions. -/
inductive Reachable : ViewState → Prop where
  | init : Reachable initialState
  | loaded (env : Env) : Reachable (fetchPostsAndImages env initialState)
  | step (s t : ViewState) : Reachable s → UStep s t → Reachable t

/-
Helper lemmas shared by the claim theorems.
-/

/-- The placeholder data URI is a non-empty string. -/
lemma genericFallbackUrl_ne_empty : genericFallbackUrl ≠ "" := by
  decide

/-- Any constructed data URI is a non-empty string. -/
lemma data_uri_ne_empty (a b : String) : ("data:" ++ a ++ ";base64," ++ b) ≠ "" := by
  intro h
  have h2 := congrArg String.length h
  simp [String.length_append] at h2
  exact absurd h2.1.1.1 (by decide)

/-- generateImage returns either the fixed placeholder or a constructed
data URI: it has no error channel. -/
lemma generateImage_shape (ip : String) (fetch : ImageFetch) :
    generateImage ip fetch = genericFallbackUrl ∨
    ∃ m b, generateImage ip fetch = "data:" ++ m ++ ";base64," ++ b := by
  unfold generateImage
  repeat' split
  all_goals first
    | exact Or.inl rfl
    | exact Or.inr ⟨_, _, rfl⟩

/-- generateImage never returns the empty string. -/
lemma generateImage_ne_empty (ip : String) (fetch : ImageFetch) :
    generateImage ip fetch ≠ "" := by
  rcases generateImage_shape ip fetch with h | ⟨m, b, h⟩
  · rw [h]; exact genericFallbackUrl_ne_empty
  · rw [h]; exact data_uri_ne_empty m b

/-- When the find call locates no inline part, generateImage returns the
placeholder. -/
lemma generateImage_fallback_of_not_found (ip : String) (fetch : ImageFetch)
    (h : foundInlinePart (fetch (imageRequestPrompt ip)) = false) :
    generateImage ip fetch = genericFallbackUrl := by
  unfold generateImage
  unfold foundInlinePart at h
  repeat' split
  all_goals simp_all

/-- The state published by the pipeline when generateBlogContent hands back
an array of drafts. -/
lemma fetchPostsAndImages_seq (env : Env) (drafts : List PostDraft)
    (h : generateBlogContent env.textResult = GenResult.seq drafts) :
    fetchPostsAndImages env initialState =
      { posts := postsWithImages env drafts, selectedPost := none,
        isLoading := false, error := none } := by
  simp [fetchPostsAndImages, h, initialState]

/-- The state published by the pipeline when the map call throws on a
non-array value. -/
lemma fetchPostsAndImages_nonArray (env : Env)
    (h : generateBlogContent env.textResult = GenResult.nonArray) :
    fetchPostsAndImages env initialState =
      { posts := [], selectedPost := none, isLoading := false,
        error := some fetchErrorMessage } := by
  simp [fetchPostsAndImages, h, initialState]

/-- A state rendering the card grid is not loading and has no selection. -/
lemma render_list_inv (s : ViewState) (l : List Post)
    (h : render s = View.list l) :
    s.isLoading = false ∧ s.selectedPost = none ∧ l = s.posts := by
  unfold render renderReady at h
  by_cases hl : s.isLoading
  · simp [hl] at h
  · cases herr : s.error with
    | none =>
      cases hsel : s.selectedPost with
      | none => simp_all
      | some p => simp_all
    | some m =>
      by_cases hm : m.isEmpty
      · cases hsel : s.selectedPost with
        | none => simp_all
        | some p => simp_all
      · simp_all

/-- Along every reachable state, the error cell is either clear or holds
the fixed pipeline error message. -/
lemma reachable_error_inv (s : ViewState) (h : Reachable s) :
    s.error = none ∨ s.error = some fetchErrorMessage := by
  induction h with
  | init => exact Or.inl rfl
  | loaded env =>
    cases hg : generateBlogContent env.textResult with
    | seq drafts => rw [fetchPostsAndImages_seq env drafts hg]; exact Or.inl rfl
    | nonArray => rw [fetchPostsAndImages_nonArray env hg]; exact Or.inr rfl
  | step s t hs hst ih =>
    cases hst with
    | readMore p hrl hp => simpa [handleReadMore] using ih
    | back p hrd => simpa [clearSelection] using ih

/-- The fixed pipeline error message is truthy in JavaScript. -/
lemma fetchErrorMessage_not_isEmpty : fetchErrorMessage.isEmpty = false := by
  decide

/-
Concrete fixtures used by witnesses and counterexamples.
-/

/-- A concrete draft with the shape promised by the schema. -/
def d1 : PostDraft :=
  ⟨"p1", "title one", "summary one", "body one", "2026-01-01", "prompt one"⟩

/-- An environment whose text call throws and whose image calls throw. -/
def env0 : Env :=
  ⟨Except.error "network failure", fun _ => Except.error "network failure"⟩

/-- An environment whose text call parses to one draft and whose image
calls throw. -/
def env1 : Env :=
  ⟨Except.ok (Except.ok (TextPayload.drafts [d1])), fun _ => Except.error "image backend down"⟩

/-- An image call that always throws. -/
def fetchDown : ImageFetch := fun _ => Except.error "transport failure"

/-
Claim theorems.
-/

/-- Claim C1: for every successful pipeline run (the fetch effect completing
without throwing), the posts collection has the same length as the draft
sequence returned by generateBlogContent, the element at index i is the
draft at index i extended with an imageUrl field in the original order, and
every imageUrl is a non-empty string. -/
theorem claim1_collection_zips_drafts (env : Env) (drafts : List PostDraft)
    (h : generateBlogContent env.textResult = GenResult.seq drafts) :
    (fetchPostsAndImages env initialState).posts.length = drafts.length ∧
    (∀ i (hi : i < drafts.length),
      (fetchPostsAndImages env initialState).posts[i]? =
        some { toPostDraft := drafts[i],
               imageUrl := generateImage (drafts[i]).imagePrompt env.imgFetch }) ∧
    (∀ p ∈ (fetchPostsAndImages env initialState).posts, p.imageUrl ≠ "") := by
  rw [fetchPostsAndImages_seq env drafts h]
  refine ⟨by simp [postsWithImages], ?_, ?_⟩
  · intro i hi
    simp [postsWithImages, List.getElem?_map, List.getElem?_eq_getElem hi]
  · intro p hp
    simp only [postsWithImages, List.mem_map] at hp
    obtain ⟨d, hd, hpd⟩ := hp
    rw [← hpd]
    exact generateImage_ne_empty d.imagePrompt env.imgFetch

/-- Witness for claim C1 at a one-draft environment. -/
theorem claim1_witness :
    (fetchPostsAndImages env1 initialState).posts.length = 1 := by
  have h := (claim1_collection_zips_drafts env1 [d1] rfl).1
  simpa using h

/-- Claim C2: generateImage is total over every response shape, returning
either the placeholder or a constructed data URI, and whenever the find
call locates no inline part the result is exactly the fixed placeholder
data URI. -/
theorem claim2_generateImage_total (ip : String) (fetch : ImageFetch) :
    (generateImage ip fetch = genericFallbackUrl ∨
      ∃ m b, generateImage ip fetch = "data:" ++ m ++ ";base64," ++ b) ∧
    (foundInlinePart (fetch (imageRequestPrompt ip)) = false →
      generateImage ip fetch = genericFallbackUrl) :=
  ⟨generateImage_shape ip fetch, generateImage_fallback_of_not_found ip fetch⟩

/-- Witness for claim C2 at a throwing image call. -/
theorem claim2_witness :
    generateImage "robots" fetchDown = genericFallbackUrl :=
  (claim2_generateImage_total "robots" fetchDown).2 rfl

/-- Claim C4: when generateBlogContent hands back an empty sequence, the
pipeline completes in the Ready state with zero posts: loading cleared, no
error set, and the card grid rendered over an empty collection. -/
theorem claim4_empty_is_ready (env : Env)
    (h : generateBlogContent env.textResult = GenResult.seq []) :
    fetchPostsAndImages env initialState =
      { posts := [], selectedPost := none, isLoading := false, error := none } ∧
    render (fetchPostsAndImages env initialState) = View.list [] := by
  have h2 := fetchPostsAndImages_seq env [] h
  constructor
  · simpa [postsWithImages] using h2
  · rw [h2]; simp [render, renderReady, postsWithImages]

/-- Witness for claim C4 at an environment whose text call throws. -/
theorem claim4_witness :
    render (fetchPostsAndImages env0 initialState) = View.list [] :=
  (claim4_empty_is_ready env0 rfl).2

/-- Folding the literal pieces of the default-mime data URI. -/
lemma jpeg_prefix_append (b : String) :
    "data:" ++ "image/jpeg" ++ ";base64," ++ b = "data:image/jpeg;base64," ++ b := by
  have h : ("data:" ++ "image/jpeg" ++ ";base64," : String) = "data:image/jpeg;base64," := by
    decide
  rw [h]

/-- Claim C10: when an inline image part is present but its mimeType field
is absent, generateImage defaults the mime type to image/jpeg, returning
the data URI data:image/jpeg;base64, followed by the inline payload. -/
theorem claim10_mime_default (ip : String) (fetch : ImageFetch)
    (resp : ImageResponse) (c : Candidate) (rest : List Candidate)
    (ct : Content) (ps : List RespPart) (part : RespPart) (d : InlineData)
    (b : String)
    (h1 : fetch (imageRequestPrompt ip) = Except.ok resp)
    (h2 : resp.candidates = c :: rest)
    (h3 : c.content = some ct)
    (h4 : ct.parts = some ps)
    (h5 : ps.find? (fun p => p.inlineData.isSome) = some part)
    (h6 : part.inlineData = some d)
    (h7 : d.mimeType = none)
    (h8 : d.data = some b) :
    generateImage ip fetch = "data:image/jpeg;base64," ++ b := by
  unfold generateImage
  rw [h1]
  simp only [h2, h3, h4, h5, h6, h7, h8, jsOr, jsStr]
  exact jpeg_prefix_append b

/-- A concrete inline image part with no mimeType and payload QUJD. -/
def inlineW : InlineData := ⟨none, some "QUJD"⟩

/-- A part wrapping that inline data. -/
def partW : RespPart := ⟨some inlineW⟩

/-- A content wrapping that part. -/
def contentW : Content := ⟨some [partW]⟩

/-- A candidate wrapping that content. -/
def candW : Candidate := ⟨some contentW⟩

/-- A response with that single candidate. -/
def respW : ImageResponse := ⟨[candW]⟩

/-- An image call returning that response. -/
def fetchW : ImageFetch := fun _ => Except.ok respW

/-- Witness for claim C10 at the concrete response. -/
theorem claim10_witness :
    generateImage "x" fetchW = "data:image/jpeg;base64," ++ "QUJD" :=
  claim10_mime_default "x" fetchW respW candW [] contentW [partW] partW inlineW "QUJD"
    rfl rfl rfl rfl rfl rfl rfl rfl

/-- Claim C5: from any reachable list-view state, selecting a post and then
clearing the selection returns exactly the original state; in particular
the posts collection is unchanged and no re-fetch occurs. -/
theorem claim5_select_clear_roundtrip (s : ViewState) (p : Post)
    (hr : Reachable s) (hl : render s = View.list s.posts) :
    clearSelection (handleReadMore s p) = s ∧
    (clearSelection (handleReadMore s p)).posts = s.posts := by
  obtain ⟨hload, hsel, hposts⟩ := render_list_inv s s.posts hl
  constructor
  · cases s with
    | mk posts sel load err =>
      simp only [clearSelection, handleReadMore]
      simp only [ViewState.selectedPost] at hsel
      rw [hsel]
  · rfl

/-- A post used only to drive the selection transitions in witnesses. -/
def p5 : Post := ⟨⟨"w5", "t5", "s5", "c5", "2026-01-02", "ip5"⟩, "url5"⟩

/-- Witness for claim C5 at the state loaded from a failing environment. -/
theorem claim5_witness :
    clearSelection (handleReadMore (fetchPostsAndImages env0 initialState) p5) =
      fetchPostsAndImages env0 initialState :=
  (claim5_select_clear_roundtrip (fetchPostsAndImages env0 initialState) p5
    (Reachable.loaded env0) rfl).1

/-- Claim C7: the Errored view admits no further transition; the pipeline
sets the error cell exactly when the orchestration throws on a non-array
parse value (never on an empty successful result); and every post-load
transition is one of the two selection transitions and changes nothing but
the selection. -/
theorem claim7_machine :
    (∀ (s : ViewState) (m : String), render s = View.errored m → ¬ ∃ t, UStep s t) ∧
    (∀ env : Env,
      (fetchPostsAndImages env initialState).error ≠ none ↔
        generateBlogContent env.textResult = GenResult.nonArray) ∧
    (∀ (s t : ViewState), UStep s t →
      t.posts = s.posts ∧ t.isLoading = s.isLoading ∧ t.error = s.error ∧
        ((∃ p, t = handleReadMore s p) ∨ t = clearSelection s)) := by
  refine ⟨?_, ?_, ?_⟩
  · rintro s m h ⟨t, hst⟩
    cases hst with
    | readMore p hrl hp => simp [h] at hrl
    | back p hrd => simp [h] at hrd
  · intro env
    cases hg : generateBlogContent env.textResult with
    | seq drafts =>
      rw [fetchPostsAndImages_seq env drafts hg]
      simp
    | nonArray =>
      rw [fetchPostsAndImages_nonArray env hg]
      simp
  · intro s t hst
    cases hst with
    | readMore p hrl hp => exact ⟨rfl, rfl, rfl, Or.inl ⟨p, rfl⟩⟩
    | back p hrd => exact ⟨rfl, rfl, rfl, Or.inr rfl⟩

/-- A concrete post-load errored state. -/
def sErr : ViewState := ⟨[], none, false, some fetchErrorMessage⟩

/-- Witness for claim C7 at the concrete errored state. -/
theorem claim7_witness : ¬ ∃ t, UStep sErr t :=
  claim7_machine.1 sErr fetchErrorMessage rfl

/-- Claim C8: over every reachable state the four views partition the state
space as a tagged union, with the precedence loading over error over detail
over list resolving which view renders. -/
theorem claim8_view_union (s : ViewState) (h : Reachable s) :
    (render s = View.loading ↔ s.isLoading = true) ∧
    ((∃ m, render s = View.errored m) ↔ (s.isLoading = false ∧ s.error ≠ none)) ∧
    ((∃ p, render s = View.detail p) ↔
      (s.isLoading = false ∧ s.error = none ∧ s.selectedPost ≠ none)) ∧
    (render s = View.list s.posts ↔
      (s.isLoading = false ∧ s.error = none ∧ s.selectedPost = none)) := by
  rcases reachable_error_inv s h with he | he <;>
    cases hl : s.isLoading <;>
    cases hsel : s.selectedPost <;>
    simp [render, renderReady, hl, he, hsel, fetchErrorMessage_not_isEmpty]

/-- Witness for claim C8 at the initial state. -/
theorem claim8_witness : render initialState = View.loading :=
  ((claim8_view_union initialState Reachable.init).1).mpr rfl

/-- An environment whose text payload is valid JSON but not an array. -/
def env3 : Env :=
  ⟨Except.ok (Except.ok TextPayload.nonArray), fun _ => Except.error "backend down"⟩

/-- Counterexample to claim C3: a payload that is valid JSON but cannot be
parsed as the expected array structure is handed back unchanged, not turned
into an empty sequence, and it drives the pipeline into the error path. -/
theorem claim3_counterexample :
    generateBlogContent env3.textResult = GenResult.nonArray ∧
    GenResult.nonArray ≠ GenResult.seq [] ∧
    (fetchPostsAndImages env3 initialState).error = some fetchErrorMessage :=
  ⟨rfl, by decide, rfl⟩

/-- Claim C3 as amended: transport or credential failures and payloads on
which JSON.parse throws degrade to an empty sequence without throwing,
while a valid-JSON payload that is not the expected array is returned
unchanged and drives the pipeline-level error path instead. -/
theorem claim3_amended_soft_failures :
    (∀ e : String, generateBlogContent (Except.error e) = GenResult.seq []) ∧
    (∀ e : String, generateBlogContent (Except.ok (Except.error e)) = GenResult.seq []) ∧
    (∀ env : Env, generateBlogContent env.textResult = GenResult.nonArray →
      (fetchPostsAndImages env initialState).error = some fetchErrorMessage ∧
      (fetchPostsAndImages env initialState).posts = []) := by
  refine ⟨fun e => rfl, fun e => rfl, fun env h => ?_⟩
  rw [fetchPostsAndImages_nonArray env h]
  exact ⟨rfl, rfl⟩

/-- Witness for the amended claim C3 at the non-array environment. -/
theorem claim3_witness :
    (fetchPostsAndImages env3 initialState).error = some fetchErrorMessage :=
  (claim3_amended_soft_failures.2.2 env3 rfl).1

/-- A reachable post-load state with an empty collection. -/
def s6 : ViewState := ⟨[], none, false, none⟩

/-- A post that is not drawn from the collection of s6. -/
def p6 : Post := ⟨⟨"ghost", "gt", "gs", "gc", "2026-01-03", "gp"⟩, "gurl"⟩

/-- Counterexample to claim C6: handleReadMore silently accepts a post that
is not an element of the current collection and sets it as the selection,
so the implementation asserts nothing. -/
theorem claim6_counterexample :
    (handleReadMore s6 p6).selectedPost = some p6 ∧ p6 ∉ s6.posts :=
  ⟨rfl, by simp [s6]⟩

/-- Claim C6 as amended: the precondition is not enforced; handleReadMore
accepts an arbitrary post, changes only the selection, and in a post-load
error-free state renders the detail view of whatever it was given. -/
theorem claim6_no_assertion (s : ViewState) (p : Post) :
    handleReadMore s p = { s with selectedPost := some p } ∧
    (s.isLoading = false → s.error = none →
      render (handleReadMore s p) = View.detail p) := by
  refine ⟨rfl, fun hl he => ?_⟩
  cases s with
  | mk posts sel load err => simp_all [render, renderReady, handleReadMore]

/-- Witness for the amended claim C6 at the concrete state and post. -/
theorem claim6_witness : render (handleReadMore s6 p6) = View.detail p6 :=
  (claim6_no_assertion s6 p6).2 rfl rfl

/-- A draft whose id is the empty string. -/
def d9 : PostDraft := ⟨"", "title nine", "sum nine", "body nine", "2026-01-04", "prompt nine"⟩

/-- An environment whose text call parses to the empty-id draft. -/
def env9 : Env :=
  ⟨Except.ok (Except.ok (TextPayload.drafts [d9])), fun _ => Except.error "down"⟩

/-- Counterexample to claim C9: a draft with an empty id is published
unchanged, so the collection holds a Post whose display key is the empty
string. -/
theorem claim9_counterexample :
    (fetchPostsAndImages env9 initialState).posts.length = 1 ∧
    (fetchPostsAndImages env9 initialState).posts.map displayKey = [""] :=
  ⟨rfl, rfl⟩

/-- Claim C9 as amended: each published Post carries the id of its draft
unchanged as the display key of its card, and the keys are non-empty
exactly when the draft ids are; the code enforces no non-emptiness. -/
theorem claim9_ids_from_drafts (env : Env) (drafts : List PostDraft)
    (h : generateBlogContent env.textResult = GenResult.seq drafts) :
    (fetchPostsAndImages env initialState).posts.map displayKey =
      drafts.map PostDraft.id ∧
    ((∀ d ∈ drafts, d.id ≠ "") →
      ∀ p ∈ (fetchPostsAndImages env initialState).posts, displayKey p ≠ "") := by
  rw [fetchPostsAndImages_seq env drafts h]
  constructor
  · simp [postsWithImages, List.map_map, displayKey, Function.comp]
  · intro hall p hp
    simp only [postsWithImages, List.mem_map] at hp
    obtain ⟨d, hd, hpd⟩ := hp
    rw [← hpd]
    exact hall d hd

/-- Witness for the amended claim C9 at the one-draft environment. -/
theorem claim9_witness :
    (fetchPostsAndImages env1 initialState).posts.map displayKey = ["p1"] := by
  have h := (claim9_ids_from_drafts env1 [d1] rfl).1
  simpa [d1] using h
